import Mathlib

/-!
Verification of the tool-calling orchestration engine of the course-materials
RAG chatbot.  The orchestrator (`backend/ai_generator.py`, class `AIGenerator`)
is embedded shallowly: the Anthropic client is a response stream
`Nat → MessageResponse` (the j-th inference call receives response `client j`),
tool execution is a pure function supplied by the caller, and the embedding
returns a trace recording every inference call's parameters, every tool
dispatch, and the final result.  Attribute access that can fail in Python
(`response.content[0].text`) is modelled with `Except PyErr`.

The tool registry and search tool (`backend/search_tools.py`) are not present
in the source tree — only their test suite is — so those definitions are
modelled from the specification, corroborated by the assertions of
`backend/tests/test_search_tools.py`.
-/

/-- Arguments of a tool invocation (`content_block.input`, a keyword mapping). -/
abbrev ToolInput := List (String × String)

/-- A content block of an inference response: either a plain text block or a
tool-use block carrying `id`, `name` and `input` (as in the Anthropic API). -/
inductive ContentBlock where
  | text (t : String)
  | toolUse (id : String) (name : String) (input : ToolInput)
deriving Repr, DecidableEq

/-- Python attribute access `block.text`: present on text blocks, an
`AttributeError` (modelled as `none`) on tool-use blocks. -/
def ContentBlock.textAttr : ContentBlock → Option String
  | .text t => some t
  | .toolUse _ _ _ => none

/-- A response from the inference backend: `stop_reason` plus content blocks. -/
structure MessageResponse where
  stop_reason : String
  content : List ContentBlock
deriving Repr, DecidableEq

/-- One `tool_result` entry sent back to the backend. -/
structure ToolResult where
  tool_use_id : String
  content : String
deriving Repr, DecidableEq

/-- The content of a conversation message: the user's query string, the
assistant's content blocks, or a batch of tool results. -/
inductive MessageContent where
  | text (s : String)
  | blocks (bs : List ContentBlock)
  | toolResults (rs : List ToolResult)
deriving Repr, DecidableEq

/-- A role-tagged conversation message. -/
structure Message where
  role : String
  content : MessageContent
deriving Repr, DecidableEq

/-- A tool definition as advertised to the backend.  The orchestrator never
inspects definitions — it passes them through verbatim — so only the name is
carried here. -/
structure ToolDef where
  name : String
deriving Repr, DecidableEq

/-- The parameters of one inference call (`api_params` / `next_params` in the
source; the constant model/temperature/max_tokens fields are omitted). -/
structure ApiParams where
  messages : List Message
  system : String
  tools : Option (List ToolDef)
  tool_choice : Option String
deriving Repr, DecidableEq

instance : Inhabited ApiParams := ⟨⟨[], "", none, none⟩⟩

/-- Python runtime errors the embedded code can raise. -/
inductive PyErr where
  | attributeError
  | indexError
deriving Repr, DecidableEq

/-- The tool manager as seen by the orchestrator: `execute_tool(name, **input)`
returning a result string (the orchestrator treats it as opaque). -/
structure ToolExecutor where
  execute_tool : String → ToolInput → String

/-- The observable trace of one `generate_response` turn: every inference
call's parameters in order, every tool dispatch in order, and the result. -/
structure TurnTrace where
  calls : List ApiParams
  dispatches : List (String × ToolInput)
  result : Except PyErr String

/-- `AIGenerator.SYSTEM_PROMPT` from `backend/ai_generator.py`. -/
def SYSTEM_PROMPT : String := "You are an AI assistant specialized in course materials and educational content with access to tools for searching content and retrieving course structure.\n\nAvailable Tools:\n1. **search_course_content** - Search within course lesson content for specific information, concepts, or answers\n2. **get_course_outline** - Retrieve course structure, lesson lists, and navigation information\n\nTool Selection Guidelines:\n- **Use search_course_content for**:\n  - Questions about specific concepts, topics, or technical details\n  - \"What is X?\", \"How does Y work?\", \"Explain Z\"\n  - Content-focused queries requiring information from lesson materials\n\n- **Use get_course_outline for**:\n  - Questions about course structure, organization, or what lessons are available\n  - \"Show me the outline\", \"What lessons are in X?\", \"What's the structure of Y?\"\n  - Navigation and discovery queries about course organization\n\n- **Use no tools for**:\n  - General knowledge questions unrelated to the specific course materials\n  - Conversational queries or clarifications\n\nTool Usage Constraints:\n- **Maximum two sequential tool calls per query** (you may call tools multiple times if needed, but use at most 2 rounds)\n- Choose the most appropriate tool based on query intent\n- If tool yields no results, state this clearly without offering unrelated alternatives\n\nResponse Protocol:\n- **No meta-commentary**: Provide direct answers without mentioning:\n  - \"Based on the search results...\"\n  - \"I searched the course materials...\"\n  - \"Using the outline tool...\"\n  - Your reasoning or tool selection process\n- **Be concise**: Get to the point quickly while maintaining educational value\n- **Be clear**: Use accessible language appropriate for learners\n- **Include examples**: When they aid understanding, provide relevant examples\n- **Synthesize effectively**: Combine tool results into coherent, natural responses\n\nRemember: Provide only the direct answer to what was asked.\n"

/-- Python truthiness of the optional `conversation_history` string:
`None` and the empty string are falsy. -/
def pyTruthyStr : Option String → Bool
  | none => false
  | some s => !(s == "")

/-- Python truthiness of the optional `tools` list: `None` and `[]` are falsy. -/
def pyTruthyTools : Option (List ToolDef) → Bool
  | none => false
  | some ts => !ts.isEmpty

/-- `system_content` of `generate_response`: the static prompt, with the
"Previous conversation" suffix appended only when the history is truthy. -/
def systemContent (conversation_history : Option String) : String :=
  if pyTruthyStr conversation_history then
    SYSTEM_PROMPT ++ "\n\nPrevious conversation:\n" ++ conversation_history.getD ""
  else
    SYSTEM_PROMPT

/-- `api_params` of the first inference call: the user query as the only
message; `tools` and `tool_choice` are added only when `tools` is truthy. -/
def initialParams (query : String) (conversation_history : Option String)
    (tools : Option (List ToolDef)) : ApiParams :=
  { messages := [⟨"user", MessageContent.text query⟩],
    system := systemContent conversation_history,
    tools := if pyTruthyTools tools then tools else none,
    tool_choice := if pyTruthyTools tools then some "auto" else none }

/-- `response.content[0].text`: IndexError on empty content, AttributeError
when the first block is not a text block. -/
def firstContentText (r : MessageResponse) : Except PyErr String :=
  match r.content with
  | [] => Except.error PyErr.indexError
  | b :: _ =>
    match b.textAttr with
    | some t => Except.ok t
    | none => Except.error PyErr.attributeError

/-- The text of the first text block of a content list, if any (the
`text_blocks[0] if text_blocks else ...` scan of the round-limit handler). -/
def firstTextBlock (content : List ContentBlock) : Option String :=
  (content.filterMap ContentBlock.textAttr).head?

/-- The tool-use requests of a response, in received order: `(id, name, input)`
of each `tool_use` block. -/
def roundRequests (content : List ContentBlock) : List (String × String × ToolInput) :=
  content.filterMap fun b =>
    match b with
    | .toolUse id name input => some (id, name, input)
    | .text _ => none

/-- The `tool_results` list built by one loop iteration: one result per
tool-use block, in order, echoing the block's id. -/
def roundResults (ex : ToolExecutor) (content : List ContentBlock) : List ToolResult :=
  content.filterMap fun b =>
    match b with
    | .toolUse id name input => some ⟨id, ex.execute_tool name input⟩
    | .text _ => none

/-- The tool dispatches performed by one loop iteration, in order. -/
def roundDispatches (content : List ContentBlock) : List (String × ToolInput) :=
  content.filterMap fun b =>
    match b with
    | .toolUse _ name input => some (name, input)
    | .text _ => none

/-- The message list after one loop iteration: the assistant's tool-use
message is appended, then the batched tool-results message — the latter only
when the results list is non-empty (`if tool_results:` in the source). -/
def roundMessages (ex : ToolExecutor) (msgs : List Message) (cur : MessageResponse) :
    List Message :=
  let msgs1 := msgs ++ [⟨"assistant", MessageContent.blocks cur.content⟩]
  let results := roundResults ex cur.content
  if results.isEmpty then msgs1
  else msgs1 ++ [⟨"user", MessageContent.toolResults results⟩]

/-- The `for round_num in range(MAX_TOOL_ROUNDS)` loop of
`_handle_tool_execution`, with the remaining iteration count as fuel.
Each iteration exits if the current response is not tool-use; otherwise it
appends the assistant message, executes all tool calls, appends the batched
tool-results message, and issues the next inference call with the accumulated
messages, the first call's tools and `tool_choice = auto`.  Returns the extra
calls made, the dispatches, and the response held when the loop ends. -/
def toolLoop (client : Nat → MessageResponse) (ex : ToolExecutor) (base : ApiParams) :
    Nat → Nat → List Message → MessageResponse →
    List ApiParams × List (String × ToolInput) × MessageResponse
  | 0, _, _, cur => ([], [], cur)
  | fuel + 1, idx, msgs, cur =>
    if cur.stop_reason = "tool_use" then
      let msgs2 := roundMessages ex msgs cur
      let nextParams : ApiParams := ⟨msgs2, base.system, base.tools, some "auto"⟩
      let rest := toolLoop client ex base fuel (idx + 1) msgs2 (client idx)
      (nextParams :: rest.1, roundDispatches cur.content ++ rest.2.1, rest.2.2)
    else ([], [], cur)

/-- `_handle_tool_execution`: run the round loop (the first loop call is
inference call number 1), then apply the post-loop policy: if the final
response is still tool-use, return its first text block or the fixed fallback
string; otherwise return `content[0].text`. -/
def handle_tool_execution (maxToolRounds : Nat) (client : Nat → MessageResponse)
    (base : ApiParams) (ex : ToolExecutor) (initial : MessageResponse) :
    List ApiParams × List (String × ToolInput) × Except PyErr String :=
  let r := toolLoop client ex base maxToolRounds 1 base.messages initial
  let result :=
    if r.2.2.stop_reason = "tool_use" then
      match firstTextBlock r.2.2.content with
      | some t => Except.ok t
      | none => Except.ok "Maximum tool rounds reached."
    else firstContentText r.2.2
  (r.1, r.2.1, result)

/-- `AIGenerator.generate_response`: issue the first inference call; enter the
tool loop only when the response is tool-use AND a tool manager was supplied;
otherwise return `response.content[0].text`. -/
def generate_response (maxToolRounds : Nat) (client : Nat → MessageResponse)
    (query : String) (conversation_history : Option String)
    (tools : Option (List ToolDef)) (tool_manager : Option ToolExecutor) :
    TurnTrace :=
  let apiParams := initialParams query conversation_history tools
  let response := client 0
  let rest : List ApiParams × List (String × ToolInput) × Except PyErr String :=
    if response.stop_reason = "tool_use" then
      match tool_manager with
      | some ex => handle_tool_execution maxToolRounds client apiParams ex response
      | none => ([], [], firstContentText response)
    else ([], [], firstContentText response)
  ⟨apiParams :: rest.1, rest.2.1, rest.2.2⟩

-- Basic facts about the trace shape, shared by the claim theorems below.

theorem generate_response_calls_head (maxToolRounds : Nat)
    (client : Nat → MessageResponse) (query : String)
    (conversation_history : Option String) (tools : Option (List ToolDef))
    (tool_manager : Option ToolExecutor) :
    (generate_response maxToolRounds client query conversation_history tools
      tool_manager).calls.headI = initialParams query conversation_history tools := rfl

theorem systemContent_none : systemContent none = SYSTEM_PROMPT := rfl

theorem systemContent_empty : systemContent (some "") = SYSTEM_PROMPT := rfl

theorem systemContent_nonempty (h : String) (hne : h ≠ "") :
    systemContent (some h) = SYSTEM_PROMPT ++ "\n\nPrevious conversation:\n" ++ h := by
  simp [systemContent, pyTruthyStr, hne]

/-- C10: with `conversation_history` equal to `None` or the empty string, the
system text of the first inference call is exactly `SYSTEM_PROMPT`; the
"Previous conversation" suffix is appended only for a non-empty history
string, so an empty-string history is indistinguishable from no history. -/
theorem system_prompt_empty_history (maxToolRounds : Nat)
    (client : Nat → MessageResponse) (query : String)
    (tools : Option (List ToolDef)) (tool_manager : Option ToolExecutor) :
    (generate_response maxToolRounds client query none tools
        tool_manager).calls.headI.system = SYSTEM_PROMPT ∧
    (generate_response maxToolRounds client query (some "") tools
        tool_manager).calls.headI.system = SYSTEM_PROMPT ∧
    ∀ h : String, h ≠ "" →
      (generate_response maxToolRounds client query (some h) tools
          tool_manager).calls.headI.system =
        SYSTEM_PROMPT ++ "\n\nPrevious conversation:\n" ++ h := by
  refine ⟨?_, ?_, ?_⟩
  · rw [generate_response_calls_head]
    rfl
  · rw [generate_response_calls_head]
    rfl
  · intro h hne
    rw [generate_response_calls_head]
    exact systemContent_nonempty h hne

/-- C10 witness: concrete evaluations of the three cases of
`system_prompt_empty_history`, with the non-empty case instantiated at the
history string used by the repository's own test. -/
theorem system_prompt_empty_history_witness :
    ("User: Hello\nAssistant: Hi there!" : String) ≠ "" ∧
    (generate_response 2 (fun _ => ⟨"end_turn", [ContentBlock.text "hi"]⟩)
        "Tell me more" (some "User: Hello\nAssistant: Hi there!") none
        none).calls.headI.system =
      SYSTEM_PROMPT ++ "\n\nPrevious conversation:\n" ++ "User: Hello\nAssistant: Hi there!" ∧
    (generate_response 2 (fun _ => ⟨"end_turn", [ContentBlock.text "hi"]⟩)
        "What is MCP?" none none none).calls.headI.system = SYSTEM_PROMPT :=
  ⟨by decide,
   (system_prompt_empty_history 2 (fun _ => ⟨"end_turn", [ContentBlock.text "hi"]⟩)
      "Tell me more" none none).2.2 "User: Hello\nAssistant: Hi there!" (by decide),
   (system_prompt_empty_history 2 (fun _ => ⟨"end_turn", [ContentBlock.text "hi"]⟩)
      "What is MCP?" none none).1⟩

-- The responses driving the round loop.  `respSeq client idx cur 0` is the
-- response the loop is entered with; `respSeq client idx cur (j+1)` is the
-- response to its j-th inference call (call number `idx + j` of the turn).

def respSeq (client : Nat → MessageResponse) (idx : Nat) (cur : MessageResponse) :
    Nat → MessageResponse
  | 0 => cur
  | n + 1 => client (idx + n)

theorem respSeq_shift (client : Nat → MessageResponse) (idx : Nat)
    (cur : MessageResponse) (n : Nat) :
    respSeq client (idx + 1) (client idx) n = respSeq client idx cur (n + 1) := by
  cases n with
  | zero => rfl
  | succ m =>
    show client (idx + 1 + m) = client (idx + (m + 1))
    exact congrArg client (by omega)

theorem respSeq_from_zero (client : Nat → MessageResponse) (n : Nat) :
    respSeq client 1 (client 0) n = client n := by
  cases n with
  | zero => rfl
  | succ m =>
    show client (1 + m) = client (m + 1)
    exact congrArg client (by omega)

theorem toolLoop_succ_toolUse (client : Nat → MessageResponse) (ex : ToolExecutor)
    (base : ApiParams) (fuel idx : Nat) (msgs : List Message)
    (cur : MessageResponse) (h0 : cur.stop_reason = "tool_use") :
    toolLoop client ex base (fuel + 1) idx msgs cur =
      (⟨roundMessages ex msgs cur, base.system, base.tools, some "auto"⟩ ::
        (toolLoop client ex base fuel (idx + 1) (roundMessages ex msgs cur) (client idx)).1,
       roundDispatches cur.content ++
        (toolLoop client ex base fuel (idx + 1) (roundMessages ex msgs cur) (client idx)).2.1,
       (toolLoop client ex base fuel (idx + 1) (roundMessages ex msgs cur) (client idx)).2.2) := by
  simp [toolLoop, h0]

theorem toolLoop_succ_stop (client : Nat → MessageResponse) (ex : ToolExecutor)
    (base : ApiParams) (fuel idx : Nat) (msgs : List Message)
    (cur : MessageResponse) (h0 : ¬cur.stop_reason = "tool_use") :
    toolLoop client ex base (fuel + 1) idx msgs cur = ([], [], cur) := by
  simp [toolLoop, h0]

theorem toolLoop_all_toolUse (client : Nat → MessageResponse) (ex : ToolExecutor)
    (base : ApiParams) :
    ∀ (fuel idx : Nat) (msgs : List Message) (cur : MessageResponse),
    (∀ j, j < fuel → (respSeq client idx cur j).stop_reason = "tool_use") →
    (toolLoop client ex base fuel idx msgs cur).1.length = fuel ∧
    (toolLoop client ex base fuel idx msgs cur).2.2 = respSeq client idx cur fuel := by
  intro fuel
  induction fuel with
  | zero =>
    intro idx msgs cur _
    exact ⟨rfl, rfl⟩
  | succ f ih =>
    intro idx msgs cur h
    have h0 : cur.stop_reason = "tool_use" := h 0 (Nat.succ_pos f)
    have hshift : ∀ j, j < f →
        (respSeq client (idx + 1) (client idx) j).stop_reason = "tool_use" := by
      intro j hj
      rw [respSeq_shift client idx cur j]
      exact h (j + 1) (by omega)
    obtain ⟨hlen, hfin⟩ := ih (idx + 1) (roundMessages ex msgs cur) (client idx) hshift
    rw [toolLoop_succ_toolUse client ex base f idx msgs cur h0]
    exact ⟨by simp [hlen], hfin.trans (respSeq_shift client idx cur f)⟩

theorem roundResults_eq_map (ex : ToolExecutor) (content : List ContentBlock) :
    roundResults ex content =
      (roundRequests content).map (fun r => ⟨r.1, ex.execute_tool r.2.1 r.2.2⟩) := by
  induction content with
  | nil => rfl
  | cons b bs ih =>
    cases b with
    | text t => simpa [roundResults, roundRequests, List.filterMap_cons] using ih
    | toolUse id name input =>
      simpa [roundResults, roundRequests, List.filterMap_cons] using ih

theorem roundDispatches_eq_map (content : List ContentBlock) :
    roundDispatches content = (roundRequests content).map (fun r => (r.2.1, r.2.2)) := by
  induction content with
  | nil => rfl
  | cons b bs ih =>
    cases b with
    | text t => simpa [roundDispatches, roundRequests, List.filterMap_cons] using ih
    | toolUse id name input =>
      simpa [roundDispatches, roundRequests, List.filterMap_cons] using ih

theorem roundDispatches_length (content : List ContentBlock) :
    (roundDispatches content).length = (roundRequests content).length := by
  rw [roundDispatches_eq_map, List.length_map]

theorem roundResults_length (ex : ToolExecutor) (content : List ContentBlock) :
    (roundResults ex content).length = (roundRequests content).length := by
  rw [roundResults_eq_map, List.length_map]

theorem toolLoop_stops (client : Nat → MessageResponse) (ex : ToolExecutor)
    (base : ApiParams) :
    ∀ (k fuel idx : Nat) (msgs : List Message) (cur : MessageResponse),
    k ≤ fuel →
    (∀ j, j < k → (respSeq client idx cur j).stop_reason = "tool_use") →
    (respSeq client idx cur k).stop_reason ≠ "tool_use" →
    (toolLoop client ex base fuel idx msgs cur).1.length = k ∧
    (toolLoop client ex base fuel idx msgs cur).2.1 =
      ((List.range k).map
        (fun j => roundDispatches (respSeq client idx cur j).content)).flatten ∧
    (toolLoop client ex base fuel idx msgs cur).2.2 = respSeq client idx cur k := by
  intro k
  induction k with
  | zero =>
    intro fuel idx msgs cur _ _ hstop
    cases fuel with
    | zero => exact ⟨rfl, rfl, rfl⟩
    | succ f =>
      rw [toolLoop_succ_stop client ex base f idx msgs cur hstop]
      exact ⟨rfl, rfl, rfl⟩
  | succ k ih =>
    intro fuel idx msgs cur hk h hstop
    cases fuel with
    | zero => omega
    | succ f =>
      have h0 : cur.stop_reason = "tool_use" := h 0 (Nat.succ_pos k)
      have hshift : ∀ j, j < k →
          (respSeq client (idx + 1) (client idx) j).stop_reason = "tool_use" := by
        intro j hj
        rw [respSeq_shift client idx cur j]
        exact h (j + 1) (by omega)
      have hstop' : (respSeq client (idx + 1) (client idx) k).stop_reason ≠ "tool_use" := by
        rw [respSeq_shift client idx cur k]
        exact hstop
      obtain ⟨hlen, hdisp, hfin⟩ :=
        ih f (idx + 1) (roundMessages ex msgs cur) (client idx) (by omega) hshift hstop'
      rw [toolLoop_succ_toolUse client ex base f idx msgs cur h0]
      refine ⟨by simp [hlen], ?_, hfin.trans (respSeq_shift client idx cur k)⟩
      show roundDispatches cur.content ++
          (toolLoop client ex base f (idx + 1) (roundMessages ex msgs cur) (client idx)).2.1 = _
      rw [hdisp, List.range_succ_eq_map, List.map_cons, List.flatten_cons, List.map_map]
      have hfun : ((fun j => roundDispatches (respSeq client idx cur j).content) ∘ Nat.succ) =
          fun j => roundDispatches (respSeq client (idx + 1) (client idx) j).content := by
        funext j
        show roundDispatches (respSeq client idx cur (j + 1)).content = _
        rw [respSeq_shift client idx cur j]
      rw [hfun]
      rfl

theorem handle_tool_execution_calls (maxToolRounds : Nat)
    (client : Nat → MessageResponse) (base : ApiParams) (ex : ToolExecutor)
    (initial : MessageResponse) :
    (handle_tool_execution maxToolRounds client base ex initial).1 =
      (toolLoop client ex base maxToolRounds 1 base.messages initial).1 := rfl

theorem handle_tool_execution_dispatches (maxToolRounds : Nat)
    (client : Nat → MessageResponse) (base : ApiParams) (ex : ToolExecutor)
    (initial : MessageResponse) :
    (handle_tool_execution maxToolRounds client base ex initial).2.1 =
      (toolLoop client ex base maxToolRounds 1 base.messages initial).2.1 := rfl

theorem handle_tool_execution_result (maxToolRounds : Nat)
    (client : Nat → MessageResponse) (base : ApiParams) (ex : ToolExecutor)
    (initial : MessageResponse) :
    (handle_tool_execution maxToolRounds client base ex initial).2.2 =
      if (toolLoop client ex base maxToolRounds 1 base.messages initial).2.2.stop_reason
          = "tool_use" then
        match firstTextBlock
            (toolLoop client ex base maxToolRounds 1 base.messages initial).2.2.content with
        | some t => Except.ok t
        | none => Except.ok "Maximum tool rounds reached."
      else
        firstContentText (toolLoop client ex base maxToolRounds 1 base.messages initial).2.2 :=
  rfl

theorem generate_response_toolUse (maxToolRounds : Nat)
    (client : Nat → MessageResponse) (query : String)
    (conversation_history : Option String) (tools : Option (List ToolDef))
    (ex : ToolExecutor) (h0 : (client 0).stop_reason = "tool_use") :
    generate_response maxToolRounds client query conversation_history tools (some ex) =
      ⟨initialParams query conversation_history tools ::
        (handle_tool_execution maxToolRounds client
          (initialParams query conversation_history tools) ex (client 0)).1,
       (handle_tool_execution maxToolRounds client
          (initialParams query conversation_history tools) ex (client 0)).2.1,
       (handle_tool_execution maxToolRounds client
          (initialParams query conversation_history tools) ex (client 0)).2.2⟩ := by
  simp [generate_response, h0]

theorem generate_response_direct (maxToolRounds : Nat)
    (client : Nat → MessageResponse) (query : String)
    (conversation_history : Option String) (tools : Option (List ToolDef))
    (tool_manager : Option ToolExecutor)
    (h0 : ¬(client 0).stop_reason = "tool_use") :
    generate_response maxToolRounds client query conversation_history tools tool_manager =
      ⟨[initialParams query conversation_history tools], [],
       firstContentText (client 0)⟩ := by
  simp [generate_response, h0]

/-- C1: when the backend returns a tool-use response on every call through
round R (R = the configured MAX_TOOL_ROUNDS), the orchestrator makes exactly
R+1 inference calls and no more, and the returned answer is the first text
block of the last (still tool-use) response when one exists and the fixed
fallback string "Maximum tool rounds reached." otherwise; the result is
always an `Except.ok` string, never an error. -/
theorem generate_response_round_limit (maxToolRounds : Nat)
    (client : Nat → MessageResponse) (query : String)
    (conversation_history : Option String) (tools : Option (List ToolDef))
    (ex : ToolExecutor)
    (h : ∀ i, i ≤ maxToolRounds → (client i).stop_reason = "tool_use") :
    (generate_response maxToolRounds client query conversation_history tools
        (some ex)).calls.length = maxToolRounds + 1 ∧
    (generate_response maxToolRounds client query conversation_history tools
        (some ex)).result =
      Except.ok ((firstTextBlock (client maxToolRounds).content).getD
        "Maximum tool rounds reached.") := by
  have h0 : (client 0).stop_reason = "tool_use" := h 0 (Nat.zero_le _)
  have hseq : ∀ j, j < maxToolRounds →
      (respSeq client 1 (client 0) j).stop_reason = "tool_use" := by
    intro j hj
    rw [respSeq_from_zero]
    exact h j (by omega)
  obtain ⟨hlen, hfin⟩ := toolLoop_all_toolUse client ex
    (initialParams query conversation_history tools) maxToolRounds 1
    (initialParams query conversation_history tools).messages (client 0) hseq
  rw [respSeq_from_zero] at hfin
  rw [generate_response_toolUse maxToolRounds client query conversation_history tools ex h0]
  constructor
  · show (initialParams query conversation_history tools ::
        (handle_tool_execution maxToolRounds client
          (initialParams query conversation_history tools) ex (client 0)).1).length = _
    rw [List.length_cons, handle_tool_execution_calls, hlen]
  · show (handle_tool_execution maxToolRounds client
        (initialParams query conversation_history tools) ex (client 0)).2.2 = _
    rw [handle_tool_execution_result, hfin, if_pos (h maxToolRounds (le_refl _))]
    cases hft : firstTextBlock (client maxToolRounds).content with
    | none => rfl
    | some t => rfl

/-- C1 witness: with R = 2 and a backend that answers every call with the
same text-free tool-use response, the orchestrator makes exactly 3 inference
calls and returns the fallback string. -/
theorem generate_response_round_limit_witness :
    (generate_response 2
        (fun _ => ⟨"tool_use",
          [ContentBlock.toolUse "t1" "search_course_content" [("query", "q")]]⟩)
        "Test query" none (some [⟨"search_course_content"⟩])
        (some ⟨fun _ _ => "Tool result"⟩)).calls.length = 3 ∧
    (generate_response 2
        (fun _ => ⟨"tool_use",
          [ContentBlock.toolUse "t1" "search_course_content" [("query", "q")]]⟩)
        "Test query" none (some [⟨"search_course_content"⟩])
        (some ⟨fun _ _ => "Tool result"⟩)).result =
      Except.ok "Maximum tool rounds reached." := by
  have h := generate_response_round_limit 2
    (fun _ => ⟨"tool_use",
      [ContentBlock.toolUse "t1" "search_course_content" [("query", "q")]]⟩)
    "Test query" none (some [⟨"search_course_content"⟩]) ⟨fun _ _ => "Tool result"⟩
    (fun _ _ => rfl)
  exact ⟨h.1, h.2⟩

/-- C2: a turn whose first response is a direct (non-tool-use) answer makes
exactly one inference call and performs no tool dispatch; a turn with k
sequential tool-use responses (1 ≤ k ≤ R) followed by a non-tool-use response
makes exactly k+1 inference calls, and the total number of tool dispatches
equals the total number of tool-use requests across the k tool-use
responses. -/
theorem generate_response_call_counts (maxToolRounds : Nat)
    (client : Nat → MessageResponse) (query : String)
    (conversation_history : Option String) (tools : Option (List ToolDef))
    (ex : ToolExecutor) :
    ((client 0).stop_reason ≠ "tool_use" →
      (generate_response maxToolRounds client query conversation_history tools
          (some ex)).calls.length = 1 ∧
      (generate_response maxToolRounds client query conversation_history tools
          (some ex)).dispatches = []) ∧
    (∀ k, 1 ≤ k → k ≤ maxToolRounds →
      (∀ j, j < k → (client j).stop_reason = "tool_use") →
      (client k).stop_reason ≠ "tool_use" →
      (generate_response maxToolRounds client query conversation_history tools
          (some ex)).calls.length = k + 1 ∧
      (generate_response maxToolRounds client query conversation_history tools
          (some ex)).dispatches.length =
        ((List.range k).map
          (fun j => (roundRequests (client j).content).length)).sum) := by
  constructor
  · intro h0
    rw [generate_response_direct maxToolRounds client query conversation_history tools
      (some ex) h0]
    exact ⟨rfl, rfl⟩
  · intro k hk1 hkR hall hstop
    have h0 : (client 0).stop_reason = "tool_use" := hall 0 (by omega)
    have hseq : ∀ j, j < k →
        (respSeq client 1 (client 0) j).stop_reason = "tool_use" := by
      intro j hj
      rw [respSeq_from_zero]
      exact hall j hj
    have hstop' : (respSeq client 1 (client 0) k).stop_reason ≠ "tool_use" := by
      rw [respSeq_from_zero]
      exact hstop
    obtain ⟨hlen, hdisp, _⟩ := toolLoop_stops client ex
      (initialParams query conversation_history tools) k maxToolRounds 1
      (initialParams query conversation_history tools).messages (client 0) hkR hseq hstop'
    rw [generate_response_toolUse maxToolRounds client query conversation_history tools ex h0]
    constructor
    · show (initialParams query conversation_history tools ::
          (handle_tool_execution maxToolRounds client
            (initialParams query conversation_history tools) ex (client 0)).1).length = _
      rw [List.length_cons, handle_tool_execution_calls, hlen]
    · show (handle_tool_execution maxToolRounds client
          (initialParams query conversation_history tools) ex (client 0)).2.1.length = _
      rw [handle_tool_execution_dispatches, hdisp, List.length_flatten, List.map_map]
      have hfun : (List.length ∘
            fun j => roundDispatches (respSeq client 1 (client 0) j).content) =
          fun j => (roundRequests (client j).content).length := by
        funext j
        show (roundDispatches (respSeq client 1 (client 0) j).content).length = _
        rw [respSeq_from_zero, roundDispatches_length]
      rw [hfun]

/-- C2 witness: a direct-answer turn makes 1 call and 0 dispatches; a
one-round tool-use turn (tool-use response with one request, then a direct
answer) makes 2 calls and 1 dispatch. -/
theorem generate_response_call_counts_witness :
    ((generate_response 2 (fun _ => ⟨"end_turn", [ContentBlock.text "direct"]⟩)
        "What is MCP?" none (some [⟨"search_course_content"⟩])
        (some ⟨fun _ _ => "Tool result"⟩)).calls.length = 1 ∧
     (generate_response 2 (fun _ => ⟨"end_turn", [ContentBlock.text "direct"]⟩)
        "What is MCP?" none (some [⟨"search_course_content"⟩])
        (some ⟨fun _ _ => "Tool result"⟩)).dispatches = []) ∧
    ((generate_response 2
        (fun j => if j = 0 then
          ⟨"tool_use", [ContentBlock.toolUse "toolu_01A2B3C4D5E6F7G8H9I0J1K2"
            "search_course_content" [("query", "What is MCP?"), ("course_name", "MCP")]]⟩
          else ⟨"end_turn", [ContentBlock.text "MCP (Model Context Protocol)"]⟩)
        "What is MCP?" none (some [⟨"search_course_content"⟩])
        (some ⟨fun _ _ => "Tool result"⟩)).calls.length = 2 ∧
     (generate_response 2
        (fun j => if j = 0 then
          ⟨"tool_use", [ContentBlock.toolUse "toolu_01A2B3C4D5E6F7G8H9I0J1K2"
            "search_course_content" [("query", "What is MCP?"), ("course_name", "MCP")]]⟩
          else ⟨"end_turn", [ContentBlock.text "MCP (Model Context Protocol)"]⟩)
        "What is MCP?" none (some [⟨"search_course_content"⟩])
        (some ⟨fun _ _ => "Tool result"⟩)).dispatches.length = 1) := by
  refine ⟨(generate_response_call_counts 2
      (fun _ => ⟨"end_turn", [ContentBlock.text "direct"]⟩) "What is MCP?" none
      (some [⟨"search_course_content"⟩]) ⟨fun _ _ => "Tool result"⟩).1 (by decide), ?_⟩
  have h := (generate_response_call_counts 2
    (fun j => if j = 0 then
      ⟨"tool_use", [ContentBlock.toolUse "toolu_01A2B3C4D5E6F7G8H9I0J1K2"
        "search_course_content" [("query", "What is MCP?"), ("course_name", "MCP")]]⟩
      else ⟨"end_turn", [ContentBlock.text "MCP (Model Context Protocol)"]⟩)
    "What is MCP?" none (some [⟨"search_course_content"⟩])
    ⟨fun _ _ => "Tool result"⟩).2 1 (by decide) (by decide)
    (by
      intro j hj
      have hj0 : j = 0 := by omega
      subst hj0
      rfl)
    (by decide)
  exact ⟨h.1, h.2.trans (by rfl)⟩

theorem roundMessages_append (ex : ToolExecutor) (msgs : List Message)
    (cur : MessageResponse) :
    ∃ l, roundMessages ex msgs cur = msgs ++ l := by
  cases hr : (roundResults ex cur.content).isEmpty with
  | true =>
    exact ⟨[⟨"assistant", MessageContent.blocks cur.content⟩],
      by simp [roundMessages, hr]⟩
  | false =>
    exact ⟨[⟨"assistant", MessageContent.blocks cur.content⟩,
            ⟨"user", MessageContent.toolResults (roundResults ex cur.content)⟩],
      by simp [roundMessages, hr]⟩

/-- C3: in a tool-use round, the loop produces exactly one result per
tool-use request — in the order the requests were received, each echoing the
`tool_use_id` of its request — and (when the round has at least one request)
appends them as one batched user-role message directly after the assistant's
tool-use message; the next inference call is issued with exactly this
message list. -/
theorem toolLoop_round_trip (client : Nat → MessageResponse) (ex : ToolExecutor)
    (base : ApiParams) (fuel idx : Nat) (msgs : List Message)
    (cur : MessageResponse) (h1 : cur.stop_reason = "tool_use")
    (h2 : roundRequests cur.content ≠ []) :
    roundResults ex cur.content =
      (roundRequests cur.content).map (fun r => ⟨r.1, ex.execute_tool r.2.1 r.2.2⟩) ∧
    (roundResults ex cur.content).length = (roundRequests cur.content).length ∧
    (toolLoop client ex base (fuel + 1) idx msgs cur).1.head? =
      some ⟨msgs ++ [⟨"assistant", MessageContent.blocks cur.content⟩,
                     ⟨"user", MessageContent.toolResults (roundResults ex cur.content)⟩],
            base.system, base.tools, some "auto"⟩ := by
  refine ⟨roundResults_eq_map ex cur.content, roundResults_length ex cur.content, ?_⟩
  rw [toolLoop_succ_toolUse client ex base fuel idx msgs cur h1]
  have hne : roundResults ex cur.content ≠ [] := by
    rw [roundResults_eq_map]
    intro hmap
    exact h2 (List.map_eq_nil_iff.mp hmap)
  have hbool : (roundResults ex cur.content).isEmpty = false := by
    cases hr : roundResults ex cur.content with
    | nil => exact absurd hr hne
    | cons a l => rfl
  simp [roundMessages, hbool]

/-- C3 witness: a round with two tool-use requests produces two id-matched
results batched into a single user message on the next call. -/
theorem toolLoop_round_trip_witness :
    (⟨"tool_use",
      [ContentBlock.toolUse "tool_id_1" "search_course_content"
        [("query", "What is MCP?")],
       ContentBlock.toolUse "tool_id_2" "search_course_content"
        [("query", "What are MCP servers?")]]⟩ : MessageResponse).stop_reason
      = "tool_use" ∧
    roundRequests
      [ContentBlock.toolUse "tool_id_1" "search_course_content"
        [("query", "What is MCP?")],
       ContentBlock.toolUse "tool_id_2" "search_course_content"
        [("query", "What are MCP servers?")]] ≠ [] ∧
    (toolLoop (fun _ => ⟨"end_turn", [ContentBlock.text "done"]⟩)
      ⟨fun _ _ => "result"⟩
      ⟨[⟨"user", MessageContent.text "Tell me about MCP"⟩], SYSTEM_PROMPT,
        some [⟨"search_course_content"⟩], some "auto"⟩
      2 1 [⟨"user", MessageContent.text "Tell me about MCP"⟩]
      ⟨"tool_use",
        [ContentBlock.toolUse "tool_id_1" "search_course_content"
          [("query", "What is MCP?")],
         ContentBlock.toolUse "tool_id_2" "search_course_content"
          [("query", "What are MCP servers?")]]⟩).1.head? =
      some ⟨[⟨"user", MessageContent.text "Tell me about MCP"⟩,
             ⟨"assistant", MessageContent.blocks
               [ContentBlock.toolUse "tool_id_1" "search_course_content"
                 [("query", "What is MCP?")],
                ContentBlock.toolUse "tool_id_2" "search_course_content"
                 [("query", "What are MCP servers?")]]⟩,
             ⟨"user", MessageContent.toolResults
               [⟨"tool_id_1", "result"⟩, ⟨"tool_id_2", "result"⟩]⟩],
            SYSTEM_PROMPT, some [⟨"search_course_content"⟩], some "auto"⟩ := by
  refine ⟨rfl, by decide, ?_⟩
  exact (toolLoop_round_trip (fun _ => ⟨"end_turn", [ContentBlock.text "done"]⟩)
    ⟨fun _ _ => "result"⟩
    ⟨[⟨"user", MessageContent.text "Tell me about MCP"⟩], SYSTEM_PROMPT,
      some [⟨"search_course_content"⟩], some "auto"⟩
    1 1 [⟨"user", MessageContent.text "Tell me about MCP"⟩]
    ⟨"tool_use",
      [ContentBlock.toolUse "tool_id_1" "search_course_content"
        [("query", "What is MCP?")],
       ContentBlock.toolUse "tool_id_2" "search_course_content"
        [("query", "What are MCP servers?")]]⟩ rfl (by decide)).2.2

theorem toolLoop_calls_tools (client : Nat → MessageResponse) (ex : ToolExecutor)
    (base : ApiParams) :
    ∀ (fuel idx : Nat) (msgs : List Message) (cur : MessageResponse),
    ∀ p ∈ (toolLoop client ex base fuel idx msgs cur).1,
      p.tools = base.tools ∧ p.tool_choice = some "auto" := by
  intro fuel
  induction fuel with
  | zero =>
    intro idx msgs cur p hp
    simp [toolLoop] at hp
  | succ f ih =>
    intro idx msgs cur p hp
    by_cases h0 : cur.stop_reason = "tool_use"
    · rw [toolLoop_succ_toolUse client ex base f idx msgs cur h0] at hp
      rcases List.mem_cons.mp hp with h | h
      · subst h
        exact ⟨rfl, rfl⟩
      · exact ih (idx + 1) (roundMessages ex msgs cur) (client idx) p h
    · rw [toolLoop_succ_stop client ex base f idx msgs cur h0] at hp
      simp at hp

theorem toolLoop_chain (client : Nat → MessageResponse) (ex : ToolExecutor)
    (base : ApiParams) :
    ∀ (fuel idx : Nat) (msgs : List Message) (cur : MessageResponse) (p : ApiParams),
    p.messages = msgs →
    List.Chain' (fun a b => ∃ l, b.messages = a.messages ++ l)
      (p :: (toolLoop client ex base fuel idx msgs cur).1) := by
  intro fuel
  induction fuel with
  | zero =>
    intro idx msgs cur p _
    simp [toolLoop]
  | succ f ih =>
    intro idx msgs cur p hp
    by_cases h0 : cur.stop_reason = "tool_use"
    · rw [toolLoop_succ_toolUse client ex base f idx msgs cur h0]
      rw [List.chain'_cons]
      constructor
      · rw [hp]
        exact roundMessages_append ex msgs cur
      · exact ih (idx + 1) (roundMessages ex msgs cur) (client idx) _ rfl
    · rw [toolLoop_succ_stop client ex base f idx msgs cur h0]
      simp

/-- C4: on every round after the first, the inference request carries the
same tool definitions as the first request and `tool_choice = auto`, and each
request's message list extends the previous request's by appending — the
accumulated conversation is never truncated and tools are never omitted on a
later round of the turn. -/
theorem generate_response_rounds_keep_tools (maxToolRounds : Nat)
    (client : Nat → MessageResponse) (query : String)
    (conversation_history : Option String) (tools : Option (List ToolDef))
    (tool_manager : Option ToolExecutor) :
    (∀ p ∈ (generate_response maxToolRounds client query conversation_history tools
        tool_manager).calls.tail,
      p.tools = (generate_response maxToolRounds client query conversation_history tools
        tool_manager).calls.headI.tools ∧ p.tool_choice = some "auto") ∧
    List.Chain' (fun a b => ∃ l, b.messages = a.messages ++ l)
      (generate_response maxToolRounds client query conversation_history tools
        tool_manager).calls := by
  rw [generate_response_calls_head]
  by_cases h0 : (client 0).stop_reason = "tool_use"
  · cases tool_manager with
    | none =>
      have hg : generate_response maxToolRounds client query conversation_history tools
          none = ⟨[initialParams query conversation_history tools], [],
            firstContentText (client 0)⟩ := by
        simp [generate_response, h0]
      rw [hg]
      exact ⟨by simp, by simp⟩
    | some ex =>
      rw [generate_response_toolUse maxToolRounds client query conversation_history
        tools ex h0]
      constructor
      · intro p hp
        have := toolLoop_calls_tools client ex
          (initialParams query conversation_history tools) maxToolRounds 1
          (initialParams query conversation_history tools).messages (client 0) p
          (by
            rw [← handle_tool_execution_calls]
            exact hp)
        exact this
      · show List.Chain' _ (initialParams query conversation_history tools ::
          (handle_tool_execution maxToolRounds client
            (initialParams query conversation_history tools) ex (client 0)).1)
        rw [handle_tool_execution_calls]
        exact toolLoop_chain client ex (initialParams query conversation_history tools)
          maxToolRounds 1 (initialParams query conversation_history tools).messages
          (client 0) _ rfl
  · rw [generate_response_direct maxToolRounds client query conversation_history tools
      tool_manager h0]
    exact ⟨by simp, by simp⟩

theorem generate_response_noManager_eq (maxToolRounds : Nat)
    (client : Nat → MessageResponse) (query : String)
    (conversation_history : Option String) (tools : Option (List ToolDef))
    (h0 : (client 0).stop_reason = "tool_use") :
    generate_response maxToolRounds client query conversation_history tools none =
      ⟨[initialParams query conversation_history tools], [],
       firstContentText (client 0)⟩ := by
  simp [generate_response, h0]

/-- C5 (amended): on a tool-use response with no tool manager supplied, the
orchestrator attempts no tool invocation and makes no further inference call,
but the condition is NOT surfaced as an explicit programming/configuration
fault: control falls through to the direct-answer path and returns
`response.content[0].text` — silently producing an answer string whenever the
tool-use response happens to begin with a text block, and raising an
incidental attribute/index error only when it does not. -/
theorem generate_response_no_manager (maxToolRounds : Nat)
    (client : Nat → MessageResponse) (query : String)
    (conversation_history : Option String) (tools : Option (List ToolDef))
    (h0 : (client 0).stop_reason = "tool_use") :
    (generate_response maxToolRounds client query conversation_history tools
        none).dispatches = [] ∧
    (generate_response maxToolRounds client query conversation_history tools
        none).calls.length = 1 ∧
    (generate_response maxToolRounds client query conversation_history tools
        none).result = firstContentText (client 0) := by
  rw [generate_response_noManager_eq maxToolRounds client query conversation_history
    tools h0]
  exact ⟨rfl, rfl, rfl⟩

/-- C5 witness: a text-free tool-use response with no manager yields one
call, no dispatch, and an AttributeError from `content[0].text`. -/
theorem generate_response_no_manager_witness :
    ((fun _ => (⟨"tool_use",
        [ContentBlock.toolUse "toolu_01A2B3C4D5E6F7G8H9I0J1K2"
          "search_course_content"
          [("query", "What is MCP?"), ("course_name", "MCP")]]⟩ : MessageResponse))
        (0 : Nat)).stop_reason = "tool_use" ∧
    (generate_response 2
        (fun _ => ⟨"tool_use",
          [ContentBlock.toolUse "toolu_01A2B3C4D5E6F7G8H9I0J1K2"
            "search_course_content"
            [("query", "What is MCP?"), ("course_name", "MCP")]]⟩)
        "What is MCP?" none (some [⟨"test"⟩]) none).dispatches = [] ∧
    (generate_response 2
        (fun _ => ⟨"tool_use",
          [ContentBlock.toolUse "toolu_01A2B3C4D5E6F7G8H9I0J1K2"
            "search_course_content"
            [("query", "What is MCP?"), ("course_name", "MCP")]]⟩)
        "What is MCP?" none (some [⟨"test"⟩]) none).result =
      Except.error PyErr.attributeError := by
  have h := generate_response_no_manager 2
    (fun _ => ⟨"tool_use",
      [ContentBlock.toolUse "toolu_01A2B3C4D5E6F7G8H9I0J1K2"
        "search_course_content"
        [("query", "What is MCP?"), ("course_name", "MCP")]]⟩)
    "What is MCP?" none (some [⟨"test"⟩]) rfl
  exact ⟨rfl, h.1, h.2.2⟩

/-- C5 counterexample: the claim says the missing-manager condition is
surfaced as a loud fault rather than silently converted into an answer
string; but on a tool-use response whose first content block is a text block
the orchestrator returns that text as an ordinary successful answer, with no
dispatch and no error. -/
theorem generate_response_no_manager_counterexample :
    (generate_response 2
        (fun _ => ⟨"tool_use",
          [ContentBlock.text "Partial answer",
           ContentBlock.toolUse "toolu_01A2B3C4D5E6F7G8H9I0J1K2"
             "search_course_content" [("query", "What is MCP?")]]⟩)
        "What is MCP?" none (some [⟨"test"⟩]) none).result =
      Except.ok "Partial answer" ∧
    (generate_response 2
        (fun _ => ⟨"tool_use",
          [ContentBlock.text "Partial answer",
           ContentBlock.toolUse "toolu_01A2B3C4D5E6F7G8H9I0J1K2"
             "search_course_content" [("query", "What is MCP?")]]⟩)
        "What is MCP?" none (some [⟨"test"⟩]) none).dispatches = [] := by
  exact ⟨rfl, rfl⟩

-- ----------------------------------------------------------------------------
-- Tool registry and search tool.  `backend/search_tools.py` and
-- `backend/vector_store.py` are not present in the source tree (only their
-- tests are), so the definitions below are modelled from the specification
-- (sections 4.1, 4.2, 6) and pinned to the concrete strings asserted by
-- `backend/tests/test_search_tools.py`.
-- ----------------------------------------------------------------------------

/-- A citation source: display text plus optional link (spec section 3). -/
structure Source where
  text : String
  link : Option String
deriving Repr, DecidableEq

/-- Per-document metadata as stored with each chunk; either key may be
absent from the mapping (`meta.get(...)` in the tests' fixtures). -/
structure DocMeta where
  course_title : Option String
  lesson_number : Option Nat
deriving Repr, DecidableEq

/-- `vector_store.SearchResults`: documents, per-document metadata, optional
error string (the fields exercised by the tests; distances are irrelevant to
the tool's behaviour and omitted). -/
structure SearchResults where
  documents : List String
  metadata : List DocMeta
  error : Option String
deriving Repr, DecidableEq

/-- The retrieval backend boundary used by the search tool (spec section 6):
`search(query, course_name?, lesson_number?)` and
`get_lesson_link(course_title, lesson_number)`. -/
structure VectorStore where
  search : String → Option String → Option Nat → SearchResults
  get_lesson_link : String → Nat → Option String

/-- Modelled from the spec: the description of any active filters appended to
the "No relevant content found" message; the concrete wording is pinned by
`test_execute_empty_results_with_filters` (" in course '<name>'",
" in lesson <n>"). -/
def filterInfo (course_name : Option String) (lesson_number : Option Nat) : String :=
  (match course_name with
   | some c => " in course '" ++ c ++ "'"
   | none => "") ++
  (match lesson_number with
   | some n => " in lesson " ++ toString n
   | none => "")

/-- Modelled from the spec: the display text of a Source — course title
(defaulting to "unknown") plus " - Lesson <n>" when the metadata has a lesson
number; pinned by `test_format_results_with_lesson_links` and
`test_format_results_missing_lesson_number` (no surrounding brackets). -/
def sourceText (meta : DocMeta) : String :=
  meta.course_title.getD "unknown" ++
  (match meta.lesson_number with
   | some n => " - Lesson " ++ toString n
   | none => "")

/-- Modelled from the spec: the resolved lesson link of a Source — looked up
through the store only when the metadata has a lesson number, otherwise none
(pinned by `test_format_results_missing_lesson_number`: link is None). -/
def sourceLink (store : VectorStore) (meta : DocMeta) : Option String :=
  match meta.lesson_number with
  | some n => store.get_lesson_link (meta.course_title.getD "unknown") n
  | none => none

/-- Modelled from the spec: one (document, metadata) pair formatted as a
bracketed header `[<course>( - Lesson <n>)?]` followed by the document text,
together with the Source recorded for the pair. -/
def formatPair (store : VectorStore) (doc : String) (meta : DocMeta) :
    String × Source :=
  ("[" ++ sourceText meta ++ "]\n" ++ doc, ⟨sourceText meta, sourceLink store meta⟩)

/-- Modelled from the spec: `_format_results` — pairs joined with blank
lines, one Source per pair. -/
def formatResults (store : VectorStore) (r : SearchResults) :
    String × List Source :=
  let pairs := (r.documents.zip r.metadata).map (fun p => formatPair store p.1 p.2)
  (String.intercalate "\n\n" (pairs.map Prod.fst), pairs.map Prod.snd)

/-- Modelled from the spec: `CourseSearchTool.execute` — returns the result
text together with the tool's new Source list (`execute` overwrites
`last_sources` with the sources produced by this call, empty if none).
On a backend error the error string is returned verbatim; on zero documents
a "No relevant content found" message with the active-filter description;
otherwise the formatted results. -/
def CourseSearchTool.execute (store : VectorStore) (query : String)
    (course_name : Option String) (lesson_number : Option Nat) :
    String × List Source :=
  let results := store.search query course_name lesson_number
  match results.error with
  | some e => (e, [])
  | none =>
    if results.documents.isEmpty then
      ("No relevant content found" ++ filterInfo course_name lesson_number ++ ".", [])
    else
      formatResults store results

/-- A registered tool as the registry sees it: its execution behaviour
(result text plus the sources this call produces) and its current
`last_sources` list. -/
structure ToolState where
  exec : ToolInput → String × List Source
  last_sources : List Source

/-- The Tool Registry (`ToolManager`): registered tools in registration
order, keyed by name. -/
structure ToolManager where
  tools : List (String × ToolState)

/-- Modelled from the spec: dispatch by exact name match over the registered
tools; an absent name yields the literal `Tool '<name>' not found` string and
leaves every tool untouched; a hit runs the tool and overwrites its
`last_sources` with the sources this call produced. -/
def dispatchTools : List (String × ToolState) → String → ToolInput →
    String × List (String × ToolState)
  | [], name, _ => ("Tool '" ++ name ++ "' not found", [])
  | (n, t) :: rest, name, args =>
    if n = name then
      let r := t.exec args
      (r.1, (n, { t with last_sources := r.2 }) :: rest)
    else
      let r := dispatchTools rest name args
      (r.1, (n, t) :: r.2)

/-- Modelled from the spec: `ToolManager.execute_tool`. -/
def ToolManager.execute_tool (tm : ToolManager) (name : String)
    (args : ToolInput) : String × ToolManager :=
  let r := dispatchTools tm.tools name args
  (r.1, ⟨r.2⟩)

/-- Modelled from the spec: `collectSources` / `get_last_sources` — the
concatenation, in registration order, of every tool's current Source list; a
pure read that leaves the registry unchanged. -/
def ToolManager.get_last_sources (tm : ToolManager) : List Source × ToolManager :=
  ((tm.tools.map (fun p => p.2.last_sources)).flatten, tm)

/-- Modelled from the spec: `resetSources` / `reset_sources` — clears every
registered tool's Source list. -/
def ToolManager.reset_sources (tm : ToolManager) : ToolManager :=
  ⟨tm.tools.map (fun p => (p.1, { p.2 with last_sources := [] }))⟩

/-- C6: the search tool's `execute` never raises on zero results — with zero
documents and no error it returns the "No relevant content found" message
plus the active-filter description and an empty Source list; with a backend
error it returns that error string verbatim (no exception — the function is
total) and an empty Source list. -/
theorem course_search_execute_safe (store : VectorStore) (query : String)
    (course_name : Option String) (lesson_number : Option Nat) :
    ((store.search query course_name lesson_number).error = none →
      (store.search query course_name lesson_number).documents = [] →
      CourseSearchTool.execute store query course_name lesson_number =
        ("No relevant content found" ++ filterInfo course_name lesson_number ++ ".",
         [])) ∧
    (∀ e, (store.search query course_name lesson_number).error = some e →
      CourseSearchTool.execute store query course_name lesson_number = (e, [])) := by
  constructor
  · intro he hd
    simp [CourseSearchTool.execute, he, hd]
  · intro e he
    simp [CourseSearchTool.execute, he]

/-- C6 witness: concrete evaluations — empty results with both filters give
the exact message and no sources; an erroring backend gives the error string
verbatim and no sources. -/
theorem course_search_execute_safe_witness :
    ((⟨fun _ _ _ => ⟨[], [], none⟩, fun _ _ => some "https://example.com/lesson1"⟩ :
        VectorStore).search "test" (some "Advanced Course") (some 5)).error = none ∧
    ((⟨fun _ _ _ => ⟨[], [], none⟩, fun _ _ => some "https://example.com/lesson1"⟩ :
        VectorStore).search "test" (some "Advanced Course") (some 5)).documents = [] ∧
    CourseSearchTool.execute
        ⟨fun _ _ _ => ⟨[], [], none⟩, fun _ _ => some "https://example.com/lesson1"⟩
        "test" (some "Advanced Course") (some 5) =
      ("No relevant content found in course 'Advanced Course' in lesson 5.", []) ∧
    CourseSearchTool.execute
        ⟨fun _ _ _ => ⟨[], [], some "Search error: Connection timeout"⟩,
         fun _ _ => some "https://example.com/lesson1"⟩
        "test" none none =
      ("Search error: Connection timeout", []) := by
  refine ⟨rfl, rfl, ?_, ?_⟩
  · exact ((course_search_execute_safe
      ⟨fun _ _ _ => ⟨[], [], none⟩, fun _ _ => some "https://example.com/lesson1"⟩
      "test" (some "Advanced Course") (some 5)).1 rfl rfl).trans (by decide)
  · exact (course_search_execute_safe
      ⟨fun _ _ _ => ⟨[], [], some "Search error: Connection timeout"⟩,
       fun _ _ => some "https://example.com/lesson1"⟩
      "test" none none).2 "Search error: Connection timeout" rfl

theorem dispatchTools_not_found (l : List (String × ToolState)) (name : String)
    (args : ToolInput) (h : ∀ p ∈ l, p.1 ≠ name) :
    dispatchTools l name args = ("Tool '" ++ name ++ "' not found", l) := by
  induction l with
  | nil => rfl
  | cons p rest ih =>
    obtain ⟨n, t⟩ := p
    have hn : ¬n = name := h (n, t) (List.mem_cons_self _ _)
    have hrest := ih (fun q hq => h q (List.mem_cons_of_mem _ hq))
    simp [dispatchTools, hn, hrest]

/-- C7: dispatching through the registry with a name that is not registered
returns the literal string `Tool '<name>' not found` as a normal result (the
dispatch function is total, so no exception is raised) and leaves the
registry unchanged. -/
theorem execute_tool_unknown_name (tm : ToolManager) (name : String)
    (args : ToolInput) (h : ∀ p ∈ tm.tools, p.1 ≠ name) :
    (ToolManager.execute_tool tm name args).1 =
      "Tool '" ++ name ++ "' not found" ∧
    (ToolManager.execute_tool tm name args).2 = tm := by
  have hd := dispatchTools_not_found tm.tools name args h
  constructor
  · show (dispatchTools tm.tools name args).1 = _
    rw [hd]
  · show (⟨(dispatchTools tm.tools name args).2⟩ : ToolManager) = tm
    rw [hd]

/-- C7 witness: a registry holding only the search tool, dispatched with the
name used by the repository's test, returns the exact not-found string and is
left unchanged. -/
theorem execute_tool_unknown_name_witness :
    (ToolManager.execute_tool
        ⟨[("search_course_content", ⟨fun _ => ("ok", []), []⟩)]⟩
        "nonexistent_tool" [("query", "test")]).1 =
      "Tool 'nonexistent_tool' not found" ∧
    (ToolManager.execute_tool
        ⟨[("search_course_content", ⟨fun _ => ("ok", []), []⟩)]⟩
        "nonexistent_tool" [("query", "test")]).2.tools.length = 1 := by
  have h := execute_tool_unknown_name
    ⟨[("search_course_content", ⟨fun _ => ("ok", []), []⟩)]⟩
    "nonexistent_tool" [("query", "test")]
    (by
      intro p hp
      rw [List.mem_singleton] at hp
      subst hp
      decide)
  exact ⟨h.1.trans (by decide), by rw [h.2]; rfl⟩

/-- C9: `get_last_sources` is a pure read — calling it twice with no
intervening dispatch returns identical sequences — and `reset_sources`
followed by `get_last_sources` returns the empty sequence, every registered
tool's Source list having been cleared. -/
theorem sources_idempotent_and_reset (tm : ToolManager) :
    (ToolManager.get_last_sources (ToolManager.get_last_sources tm).2).1 =
      (ToolManager.get_last_sources tm).1 ∧
    (ToolManager.get_last_sources (ToolManager.reset_sources tm)).1 = [] ∧
    (ToolManager.reset_sources tm).tools.all
      (fun p => p.2.last_sources.isEmpty) = true := by
  refine ⟨rfl, ?_, ?_⟩
  · show (((ToolManager.reset_sources tm).tools.map
      (fun p => p.2.last_sources)).flatten) = []
    simp [ToolManager.reset_sources, List.map_map, Function.comp,
      List.flatten_eq_nil_iff]
  · simp [ToolManager.reset_sources, List.all_eq_true]

/-- C8 counterexample: the claim says each Source's display text equals the
`[<course> - Lesson <n>]` header of the corresponding formatted block; but
for a document whose metadata has course title "Test Course" and no lesson
number, the formatted block's header is "[Test Course]" while the recorded
Source's display text is "Test Course" — the brackets are not part of the
display text (as the repository's own test asserts). -/
theorem source_text_not_bracketed_counterexample :
    (CourseSearchTool.execute
        ⟨fun _ _ _ => ⟨["Content without lesson number"],
          [⟨some "Test Course", none⟩], none⟩,
         fun _ _ => some "https://example.com/lesson1"⟩
        "test" none none).1 = "[Test Course]\nContent without lesson number" ∧
    (CourseSearchTool.execute
        ⟨fun _ _ _ => ⟨["Content without lesson number"],
          [⟨some "Test Course", none⟩], none⟩,
         fun _ _ => some "https://example.com/lesson1"⟩
        "test" none none).2 = [⟨"Test Course", none⟩] ∧
    ("Test Course" : String) ≠ "[Test Course]" := by
  exact ⟨rfl, rfl, by decide⟩

/-- C8 (amended): for every successful search returning N documents (no
error, at least one document, metadata aligned with documents), the Source
list afterwards has length exactly N; the i-th Source's display text is the
header text of the i-th formatted block WITHOUT the enclosing square
brackets — course title plus " - Lesson <n>" only when the metadata has a
lesson number — and its link is the resolved lesson link when a lesson
number is present and none otherwise; the formatted blocks carry the same
header text wrapped in brackets. -/
theorem execute_sources_amended (store : VectorStore) (query : String)
    (course_name : Option String) (lesson_number : Option Nat)
    (he : (store.search query course_name lesson_number).error = none)
    (hne : (store.search query course_name lesson_number).documents ≠ [])
    (hlen : (store.search query course_name lesson_number).metadata.length =
      (store.search query course_name lesson_number).documents.length) :
    (CourseSearchTool.execute store query course_name lesson_number).2.length =
      (store.search query course_name lesson_number).documents.length ∧
    (CourseSearchTool.execute store query course_name lesson_number).2 =
      ((store.search query course_name lesson_number).documents.zip
        (store.search query course_name lesson_number).metadata).map
        (fun p => ⟨sourceText p.2, sourceLink store p.2⟩) ∧
    (CourseSearchTool.execute store query course_name lesson_number).1 =
      String.intercalate "\n\n"
        (((store.search query course_name lesson_number).documents.zip
          (store.search query course_name lesson_number).metadata).map
          (fun p => "[" ++ sourceText p.2 ++ "]\n" ++ p.1)) := by
  have hbool : (store.search query course_name lesson_number).documents.isEmpty
      = false := by
    cases hd : (store.search query course_name lesson_number).documents with
    | nil => exact absurd hd hne
    | cons a as => rfl
  have hexec : CourseSearchTool.execute store query course_name lesson_number =
      formatResults store (store.search query course_name lesson_number) := by
    simp [CourseSearchTool.execute, he, hbool]
  refine ⟨?_, ?_, ?_⟩
  · rw [hexec]
    simp [formatResults]
    omega
  · rw [hexec]
    simp [formatResults, formatPair, List.map_map, Function.comp]
  · rw [hexec]
    simp [formatResults, formatPair, List.map_map, Function.comp]
    rfl

/-- C8 witness: the two-document fixture of the repository's tests — two
sources, display texts "Introduction to MCP Servers - Lesson 1/2" (bracket-
free), each with the resolved link. -/
theorem execute_sources_amended_witness :
    ((⟨fun _ _ _ =>
        ⟨["MCP (Model Context Protocol) is a protocol for connecting AI models to data sources.",
          "MCP servers provide tools and resources to Claude through a standardized interface."],
         [⟨some "Introduction to MCP Servers", some 1⟩,
          ⟨some "Introduction to MCP Servers", some 2⟩], none⟩,
       fun _ _ => some "https://example.com/lesson1"⟩ : VectorStore).search
        "What is MCP?" none none).error = none ∧
    (CourseSearchTool.execute
        ⟨fun _ _ _ =>
          ⟨["MCP (Model Context Protocol) is a protocol for connecting AI models to data sources.",
            "MCP servers provide tools and resources to Claude through a standardized interface."],
           [⟨some "Introduction to MCP Servers", some 1⟩,
            ⟨some "Introduction to MCP Servers", some 2⟩], none⟩,
         fun _ _ => some "https://example.com/lesson1"⟩
        "What is MCP?" none none).2.length = 2 ∧
    (CourseSearchTool.execute
        ⟨fun _ _ _ =>
          ⟨["MCP (Model Context Protocol) is a protocol for connecting AI models to data sources.",
            "MCP servers provide tools and resources to Claude through a standardized interface."],
           [⟨some "Introduction to MCP Servers", some 1⟩,
            ⟨some "Introduction to MCP Servers", some 2⟩], none⟩,
         fun _ _ => some "https://example.com/lesson1"⟩
        "What is MCP?" none none).2 =
      [⟨"Introduction to MCP Servers - Lesson 1", some "https://example.com/lesson1"⟩,
       ⟨"Introduction to MCP Servers - Lesson 2", some "https://example.com/lesson1"⟩] := by
  have h := execute_sources_amended
    ⟨fun _ _ _ =>
      ⟨["MCP (Model Context Protocol) is a protocol for connecting AI models to data sources.",
        "MCP servers provide tools and resources to Claude through a standardized interface."],
       [⟨some "Introduction to MCP Servers", some 1⟩,
        ⟨some "Introduction to MCP Servers", some 2⟩], none⟩,
     fun _ _ => some "https://example.com/lesson1"⟩
    "What is MCP?" none none rfl (by decide) rfl
  exact ⟨rfl, h.1, h.2.1.trans (by decide)⟩
